import Mathlib

/-!
Shallow embedding of the QPMMock data source (`contrib/QPMMock.py`):
a reader for DR12 BOSS QPM periodic-box mock catalogs that applies a
velocity factor, an optional redshift-space distortion (RSD) along one
axis with a periodic wrap, and an optional anisotropic Alcock-Paczynski
(AP) rescaling of the box and of the particle positions.

Numeric values are modelled as exact rationals; numpy dtypes are tracked
symbolically where a claim mentions them.
-/

/-- AP line-of-sight factor: the class constant `qpar` of `QPMMockDataSource`. -/
def qpar : ℚ := 9851209643 / 10000000000

/-- AP transverse factor: the class constant `qperp` of `QPMMockDataSource`. -/
def qperp : ℚ := 9925056798 / 10000000000

/-- A 3-vector of exact rationals, modelling one row of an (N,3) numpy array
(or the 3-component `BoxSize`). -/
structure Vec3 where
  x : ℚ
  y : ℚ
  z : ℚ
deriving DecidableEq, Repr

/-- Component of a 3-vector along axis `i` (0 = x, 1 = y, 2 = z). -/
def Vec3.get (v : Vec3) (i : Fin 3) : ℚ :=
  if i.val = 0 then v.x else if i.val = 1 then v.y else v.z

/-- Replace the component along axis `i`, as in `pos[:, dir] = ...`. -/
def Vec3.setAxis (v : Vec3) (i : Fin 3) (a : ℚ) : Vec3 :=
  if i.val = 0 then ⟨a, v.y, v.z⟩ else if i.val = 1 then ⟨v.x, a, v.z⟩ else ⟨v.x, v.y, a⟩

/-- Multiply every component by `c`: numpy broadcasting `arr *= c`. -/
def Vec3.scaleAll (v : Vec3) (c : ℚ) : Vec3 := ⟨v.x * c, v.y * c, v.z * c⟩

/-- The per-axis AP loop in `initialize` and `readall`:
`for i in [0,1,2]: if i == dir: v[i] *= qpar else: v[i] *= qperp`. -/
def apScaleVec (dir : Fin 3) (v : Vec3) : Vec3 :=
  ⟨v.x * (if (0 : Fin 3) = dir then qpar else qperp),
   v.y * (if (1 : Fin 3) = dir then qpar else qperp),
   v.z * (if (2 : Fin 3) = dir then qpar else qperp)⟩

/-- Python/numpy float modulus `a % m = a - m * floor (a / m)`:
for `m > 0` the result lies in `[0, m)`.  This is
`pos[:, dir] %= self._BoxSize0[dir]` on one component. -/
def pymod (a m : ℚ) : ℚ := a - m * ((⌊a / m⌋ : ℤ) : ℚ)

/-- The validated configuration handed to the setup entry point:
`BoxSize` (3-vector), `scaled` flag, optional RSD axis, velocity factor. -/
structure Args where
  BoxSize : Vec3
  scaled : Bool
  rsd : Option (Fin 3)
  velf : ℚ
deriving DecidableEq, Repr

/-- The instance state after setup: `_BoxSize0` is the captured copy of the
original box size, `BoxSize` the working (possibly AP-rescaled) box size. -/
structure DSState where
  BoxSize0 : Vec3
  BoxSize : Vec3
  scaled : Bool
  rsd : Option (Fin 3)
  velf : ℚ
deriving DecidableEq, Repr

/-- `QPMMockDataSource.initialize`: the base class first copies the validated
arguments onto the instance (modelled from the spec: the base
`DataSource.initialize` from `nbodykit.extensionpoints` is not among the
sources; per the spec the setup call "configures box size and transform
parameters" from the validated configuration).  Then the plugin captures
`self._BoxSize0 = self.BoxSize.copy()` and, if `scaled`, multiplies the
working `BoxSize` by `qperp` on every axis when `rsd is None`, otherwise by
`qpar` on the RSD axis and `qperp` on the other two. -/
def configure (args : Args) : DSState :=
  { BoxSize0 := args.BoxSize
    BoxSize :=
      if args.scaled then
        match args.rsd with
        | none => args.BoxSize.scaleAll qperp
        | some dir => apScaleVec dir args.BoxSize
      else args.BoxSize
    scaled := args.scaled
    rsd := args.rsd
    velf := args.velf }

/-- Re-running the setup entry point on an already-configured instance.
Modelled from the spec: the base `DataSource.initialize` (absent from the
sources) re-assigns `BoxSize`, `scaled`, `rsd` and `velf` from the validated
arguments, overwriting any previous instance values, after which the plugin
body runs as in `configure`. -/
def reconfigure (_prev : DSState) (args : Args) : DSState := configure args

/-- The per-particle body of `readall`: multiply the velocity by `velf`
(`vel *= self.velf`); if an RSD axis `dir` is selected, add the scaled
velocity component to the position component along `dir` and reduce it
modulo the ORIGINAL box length `self._BoxSize0[dir]`; finally, if `scaled`,
multiply position components by the AP factors (`qperp` on every axis when
no RSD axis, else `qpar` on the RSD axis and `qperp` on the others). -/
def transformParticle (s : DSState) (p v : Vec3) : Vec3 × Vec3 :=
  let v1 := v.scaleAll s.velf
  let p1 :=
    match s.rsd with
    | none => p
    | some dir => p.setAxis dir (pymod (p.get dir + v1.get dir) (s.BoxSize0.get dir))
  let p2 :=
    if s.scaled then
      match s.rsd with
      | none => p1.scaleAll qperp
      | some dir => apScaleVec dir p1
    else p1
  (p2, v1)

/-- Symbolic numpy dtype, tracked where a claim mentions it. -/
inductive Dtype where
  | float32
  | float64
deriving DecidableEq, Repr

/-- The dict `P` built at the end of `readall`: `Position` and `Velocity`
are the transformed (N,3) arrays (cast with `astype('f4')`, i.e. float32);
`Weight` is `numpy.ones(len(pos))`, whose numpy default dtype is float64. -/
structure Output where
  position : List Vec3
  velocity : List Vec3
  weight : List ℚ
  positionDtype : Dtype
  velocityDtype : Dtype
  weightDtype : Dtype
deriving DecidableEq, Repr

/-- The transform stage of `readall` on a parsed batch of (position,
velocity) records. -/
def readallCore (s : DSState) (records : List (Vec3 × Vec3)) : Output :=
  let pv := records.map (fun r => transformParticle s r.1 r.2)
  { position := pv.map Prod.fst
    velocity := pv.map Prod.snd
    weight := List.replicate records.length 1
    positionDtype := Dtype.float32
    velocityDtype := Dtype.float32
    weightDtype := Dtype.float64 }

/-- Error taxonomy of the read pipeline. -/
inductive ReadError where
  | ParseError
  | UnsupportedField
  | DependencyUnavailable
deriving DecidableEq, Repr

/-- Modelled from the spec: the record contract of the CatalogReader
(implemented by the external `pandas.read_csv` call, not code of this
repository) — each record must resolve to exactly six numeric fields
`x y z vx vy vz`; any other shape is a ParseError. -/
def parseRecord (fields : List ℚ) : Except ReadError (Vec3 × Vec3) :=
  match fields with
  | [x, y, z, vx, vy, vz] => .ok (⟨x, y, z⟩, ⟨vx, vy, vz⟩)
  | _ => .error .ParseError

/-- Modelled from the spec: parsing the whole file is all-or-nothing — the
first malformed record aborts the read with a ParseError and no partial
batch is returned. -/
def parseRecords : List (List ℚ) → Except ReadError (List (Vec3 × Vec3))
  | [] => .ok []
  | r :: rest =>
    match parseRecord r, parseRecords rest with
    | .ok pv, .ok pvs => .ok (pv :: pvs)
    | .error e, _ => .error e
    | .ok _, .error e => .error e

/-- One field lookup `P[key]` in the final dict: the three stored keys
return their arrays; any other key is an unsupported-field error. -/
inductive FieldArray where
  | vecs : List Vec3 → Dtype → FieldArray
  | scalars : List ℚ → Dtype → FieldArray
deriving DecidableEq, Repr

/-- `P[key]` on the dict built by `readall`. -/
def lookupField (out : Output) (key : String) : Except ReadError FieldArray :=
  if key = "Position" then .ok (.vecs out.position out.positionDtype)
  else if key = "Velocity" then .ok (.vecs out.velocity out.velocityDtype)
  else if key = "Weight" then .ok (.scalars out.weight out.weightDtype)
  else .error .UnsupportedField

/-- The list comprehension `[P[key] for key in columns]`: fields are looked
up in request order and the first unknown key aborts the projection. -/
def project (out : Output) : List String → Except ReadError (List FieldArray)
  | [] => .ok []
  | c :: cs =>
    match lookupField out c, project out cs with
    | .ok a, .ok rest => .ok (a :: rest)
    | .error e, _ => .error e
    | .ok _, .error e => .error e

/-- The whole `readall`: parse the raw records, transform, project the
requested columns.  Raw records are the tokenized numeric fields of each
non-comment line. -/
def readall (s : DSState) (columns : List String) (raw : List (List ℚ)) :
    Except ReadError (List FieldArray) :=
  match parseRecords raw with
  | .error e => .error e
  | .ok records => project (readallCore s records) columns

/-- `readall` together with the instance state after the call: the method
body never assigns to any instance attribute (`self.BoxSize`,
`self._BoxSize0`, `self.velf`, `self.rsd`, `self.scaled`, `qpar`, `qperp`
are only read), so the state it leaves behind is the state it was given. -/
def readallWithState (s : DSState) (columns : List String) (raw : List (List ℚ)) :
    Except ReadError (List FieldArray) × DSState :=
  (readall s columns raw, s)

/-- The fixed set of supported output field names. -/
def supportedFields : List String := ["Position", "Velocity", "Weight"]

/-- Total lookup used to state what `project` returns on supported names. -/
def fieldOf (out : Output) (key : String) : FieldArray :=
  if key = "Position" then .vecs out.position out.positionDtype
  else if key = "Velocity" then .vecs out.velocity out.velocityDtype
  else .scalars out.weight out.weightDtype

/-! ### Component lemmas for the 3-vector operations -/

lemma Vec3.scaleAll_get (v : Vec3) (c : ℚ) (i : Fin 3) :
    (v.scaleAll c).get i = v.get i * c := by
  fin_cases i <;> simp [Vec3.scaleAll, Vec3.get]

lemma Vec3.setAxis_get_same (v : Vec3) (i : Fin 3) (a : ℚ) :
    (v.setAxis i a).get i = a := by
  fin_cases i <;> simp [Vec3.setAxis, Vec3.get]

lemma apScaleVec_get (d i : Fin 3) (v : Vec3) :
    (apScaleVec d v).get i = v.get i * (if i = d then qpar else qperp) := by
  fin_cases i <;> fin_cases d <;> simp [apScaleVec, Vec3.get]

/-! ### The floor-modulus facts behind the periodic wrap -/

lemma pymod_eq_fract (a m : ℚ) (hm : m ≠ 0) :
    pymod a m = m * Int.fract (a / m) := by
  unfold pymod Int.fract
  field_simp

lemma pymod_nonneg (a m : ℚ) (hm : 0 < m) : 0 ≤ pymod a m := by
  rw [pymod_eq_fract a m hm.ne']
  exact mul_nonneg hm.le (Int.fract_nonneg _)

lemma pymod_lt (a m : ℚ) (hm : 0 < m) : pymod a m < m := by
  rw [pymod_eq_fract a m hm.ne']
  calc m * Int.fract (a / m) < m * 1 :=
        mul_lt_mul_of_pos_left (Int.fract_lt_one _) hm
    _ = m := mul_one m

lemma qpar_pos : 0 < qpar := by norm_num [qpar]

lemma qpar_le_one : qpar ≤ 1 := by norm_num [qpar]

/-- The per-axis factor the AP setup is specified to apply to the working
box size, stated from the spec for comparison with `configure`. -/
def apFactor (scaled : Bool) (rsd : Option (Fin 3)) (i : Fin 3) : ℚ :=
  if scaled then
    match rsd with
    | none => qperp
    | some d => if i = d then qpar else qperp
  else 1

/-- C2: after `configure`, the captured original box size equals the input
box size; the working box size along each axis is the original size times
`qpar` on the RSD axis and `qperp` elsewhere when `scaled` is set (times
`qperp` on every axis when no RSD axis is selected, times 1 when not
scaled); and `readall` leaves the captured original box size unchanged. -/
theorem c2_configure_ap_invariant (args : Args) (i : Fin 3)
    (cols : List String) (raw : List (List ℚ)) :
    (configure args).BoxSize0 = args.BoxSize ∧
    (configure args).BoxSize.get i = args.BoxSize.get i * apFactor args.scaled args.rsd i ∧
    (readallWithState (configure args) cols raw).2.BoxSize0 = args.BoxSize := by
  refine ⟨rfl, ?_, rfl⟩
  cases hs : args.scaled
  · simp [configure, apFactor, hs]
  · cases hr : args.rsd with
    | none => simp [configure, apFactor, hs, hr, Vec3.scaleAll_get]
    | some d => simp [configure, apFactor, hs, hr, apScaleVec_get]

/-- C4: with `scaled = false` and no RSD axis, the transform leaves every
position unchanged, multiplies every velocity by `velf`, and produces a
weight of one per record. -/
theorem c4_identity_when_unscaled (bs : Vec3) (velf : ℚ)
    (records : List (Vec3 × Vec3)) :
    (readallCore (configure ⟨bs, false, none, velf⟩) records).position =
      records.map Prod.fst ∧
    (readallCore (configure ⟨bs, false, none, velf⟩) records).velocity =
      records.map (fun r => r.2.scaleAll velf) ∧
    (readallCore (configure ⟨bs, false, none, velf⟩) records).weight =
      List.replicate records.length 1 := by
  refine ⟨?_, ?_, rfl⟩ <;>
    simp [readallCore, transformParticle, configure]

/-- C5: for every configured state and every batch, the output velocity is
exactly the input velocity scaled by `velf`; the AP factors `qpar` and
`qperp` never touch a velocity component. -/
theorem c5_velocity_only_velf (s : DSState) (records : List (Vec3 × Vec3)) :
    (readallCore s records).velocity = records.map (fun r => r.2.scaleAll s.velf) := by
  simp [readallCore, transformParticle]

/-- C9: re-running the setup entry point with the same arguments yields the
same state, and the subsequent read of the same raw batch yields identical
output. -/
theorem c9_reconfigure_idempotent (args : Args) (cols : List String)
    (raw : List (List ℚ)) :
    reconfigure (configure args) args = configure args ∧
    readall (reconfigure (configure args) args) cols raw =
      readall (configure args) cols raw :=
  ⟨rfl, rfl⟩

/-- C10: `readall` leaves the whole configuration state — working box size,
captured original box size, `scaled`, `rsd`, `velf` — unchanged, so a second
read call on the state left by the first produces equal output. -/
theorem c10_readall_pure (s : DSState) (cols : List String)
    (raw : List (List ℚ)) :
    (readallWithState s cols raw).2 = s ∧
    (readallWithState s cols raw).2.BoxSize = s.BoxSize ∧
    (readallWithState s cols raw).2.BoxSize0 = s.BoxSize0 ∧
    (readallWithState s cols raw).2.scaled = s.scaled ∧
    (readallWithState s cols raw).2.rsd = s.rsd ∧
    (readallWithState s cols raw).2.velf = s.velf ∧
    (readallWithState s cols raw).1 =
      (readallWithState (readallWithState s cols raw).2 cols raw).1 :=
  ⟨rfl, rfl, rfl, rfl, rfl, rfl, rfl⟩

/-- C1: with an RSD axis `d` selected, the output position component along
`d` is the position component plus the `velf`-scaled velocity component,
reduced modulo the ORIGINAL (pre-AP) box length along `d` — which equals
the input `BoxSize`, not the AP-scaled working size — then multiplied by
`qpar` only if `scaled` is set; and the final output component along `d`
lies in `[0, originalBoxSize[d])`. -/
theorem c1_rsd_wrap_original_box (args : Args) (d : Fin 3) (p v : Vec3)
    (records : List (Vec3 × Vec3))
    (hd : args.rsd = some d) (hB : 0 < args.BoxSize.get d) :
    (readallCore (configure args) records).position =
      records.map (fun r => (transformParticle (configure args) r.1 r.2).1) ∧
    (configure args).BoxSize0.get d = args.BoxSize.get d ∧
    (transformParticle (configure args) p v).1.get d =
      pymod (p.get d + v.get d * args.velf) (args.BoxSize.get d) *
        (if args.scaled then qpar else 1) ∧
    0 ≤ (transformParticle (configure args) p v).1.get d ∧
    (transformParticle (configure args) p v).1.get d < args.BoxSize.get d := by
  have key : (transformParticle (configure args) p v).1.get d =
      pymod (p.get d + v.get d * args.velf) (args.BoxSize.get d) *
        (if args.scaled then qpar else 1) := by
    cases hs : args.scaled <;>
      simp [transformParticle, configure, hd, hs, Vec3.setAxis_get_same,
        Vec3.scaleAll_get, apScaleVec_get]
  have hw0 : 0 ≤ pymod (p.get d + v.get d * args.velf) (args.BoxSize.get d) :=
    pymod_nonneg _ _ hB
  have hwlt : pymod (p.get d + v.get d * args.velf) (args.BoxSize.get d) <
      args.BoxSize.get d := pymod_lt _ _ hB
  have hf0 : 0 ≤ (if args.scaled then qpar else 1 : ℚ) := by
    cases args.scaled <;> simp [qpar_pos.le]
  have hf1 : (if args.scaled then qpar else 1 : ℚ) ≤ 1 := by
    cases args.scaled <;> simp [qpar_le_one]
  refine ⟨by simp [readallCore], rfl, key, ?_, ?_⟩
  · rw [key]; exact mul_nonneg hw0 hf0
  · rw [key]; exact lt_of_le_of_lt (mul_le_of_le_one_right hw0 hf1) hwlt

/-- The configuration of the spec's concrete scenario: isotropic box of
side 10, RSD along x, `velf = 2`, `scaled` on. -/
def sampleArgs : Args := ⟨⟨10, 10, 10⟩, true, some 0, 2⟩

/-- Witness for C1: the hypotheses hold and the conclusion follows at the
concrete scenario configuration with particle `(0,0,0), (1,0,0)`. -/
theorem c1_witness :
    (sampleArgs.rsd = some 0 ∧ 0 < sampleArgs.BoxSize.get 0) ∧
    ((readallCore (configure sampleArgs) [(⟨0,0,0⟩, ⟨1,0,0⟩)]).position =
      [((⟨0,0,0⟩ : Vec3), (⟨1,0,0⟩ : Vec3))].map
        (fun r => (transformParticle (configure sampleArgs) r.1 r.2).1) ∧
    (configure sampleArgs).BoxSize0.get 0 = sampleArgs.BoxSize.get 0 ∧
    (transformParticle (configure sampleArgs) ⟨0,0,0⟩ ⟨1,0,0⟩).1.get 0 =
      pymod ((⟨0,0,0⟩ : Vec3).get 0 + (⟨1,0,0⟩ : Vec3).get 0 * sampleArgs.velf)
          (sampleArgs.BoxSize.get 0) *
        (if sampleArgs.scaled then qpar else 1) ∧
    0 ≤ (transformParticle (configure sampleArgs) ⟨0,0,0⟩ ⟨1,0,0⟩).1.get 0 ∧
    (transformParticle (configure sampleArgs) ⟨0,0,0⟩ ⟨1,0,0⟩).1.get 0 <
      sampleArgs.BoxSize.get 0) :=
  ⟨⟨rfl, by decide⟩,
   c1_rsd_wrap_original_box sampleArgs 0 ⟨0,0,0⟩ ⟨1,0,0⟩
     [(⟨0,0,0⟩, ⟨1,0,0⟩)] rfl (by decide)⟩

/-- The two raw records of the spec's concrete scenario:
`0 0 0 1 0 0` and `5 5 5 0 1 0`. -/
def sampleRaw : List (List ℚ) := [[0,0,0,1,0,0],[5,5,5,0,1,0]]

/-- C3: the concrete scenario — `BoxSize = 10` isotropic, RSD along x,
`velf = 2`, `scaled` on — yields the working box size
`(9.851209643, 9.925056798, 9.925056798)`, positions
`(1.9702419286, 0, 0)` and `(4.9256048215, 4.962528399, 4.962528399)`,
velocities `(2,0,0)` and `(0,2,0)`, and weight 1 for both records. -/
theorem c3_concrete_scenario :
    (configure sampleArgs).BoxSize =
      ⟨9851209643/1000000000, 9925056798/1000000000, 9925056798/1000000000⟩ ∧
    readall (configure sampleArgs) ["Position", "Velocity", "Weight"] sampleRaw =
      .ok [FieldArray.vecs
             [⟨19702419286/10000000000, 0, 0⟩,
              ⟨49256048215/10000000000, 4962528399/1000000000, 4962528399/1000000000⟩]
             Dtype.float32,
           FieldArray.vecs [⟨2,0,0⟩, ⟨0,2,0⟩] Dtype.float32,
           FieldArray.scalars [1, 1] Dtype.float64] := by
  constructor
  · norm_num [configure, sampleArgs, apScaleVec, qpar, qperp,
      (by decide : ((1:Fin 3) ≠ 0)), (by decide : ((2:Fin 3) ≠ 0))]
  · norm_num [readall, parseRecords, parseRecord, project, lookupField, readallCore,
      transformParticle, configure, sampleArgs, sampleRaw, pymod, apScaleVec,
      Vec3.scaleAll, Vec3.get, Vec3.setAxis, qpar, qperp, List.replicate,
      (by decide : ((1:Fin 3) ≠ 0)), (by decide : ((2:Fin 3) ≠ 0)),
      (by decide : "Velocity" ≠ "Position"), (by decide : "Weight" ≠ "Position"),
      (by decide : "Weight" ≠ "Velocity")]

/-- Counterexample for C6 as stated: the `Weight` array is built by
`numpy.ones(len(pos))`, whose dtype is numpy's default float64, not the
float32 the claim asserts — shown here on a concrete one-record input. -/
theorem c6_counterexample :
    (readallCore (configure sampleArgs) [(⟨0,0,0⟩, ⟨0,0,0⟩)]).weightDtype =
      Dtype.float64 ∧
    Dtype.float64 ≠ Dtype.float32 :=
  ⟨rfl, by decide⟩

/-- C6 amended: for every N-record input the `Weight` field is a
one-dimensional array with exactly N entries, each equal to 1, of dtype
float64 (numpy's default for `numpy.ones`), not float32. -/
theorem c6_weight_ones_float64 (s : DSState) (records : List (Vec3 × Vec3)) :
    (readallCore s records).weight = List.replicate records.length 1 ∧
    (readallCore s records).weight.length = records.length ∧
    (readallCore s records).weightDtype = Dtype.float64 := by
  refine ⟨rfl, ?_, rfl⟩
  simp [readallCore]

/-! ### Parse failure and projection lemmas -/

lemma parseRecord_of_length_ne (fields : List ℚ) (h : fields.length ≠ 6) :
    parseRecord fields = .error .ParseError := by
  rcases fields with _ | ⟨a, _ | ⟨b, _ | ⟨c, _ | ⟨d, _ | ⟨e, _ | ⟨f, _ | ⟨g, rest⟩⟩⟩⟩⟩⟩⟩ <;>
    first
      | rfl
      | simp at h

lemma parseRecord_cases (fields : List ℚ) :
    (∃ pv, parseRecord fields = .ok pv) ∨ parseRecord fields = .error .ParseError := by
  rcases fields with _ | ⟨a, _ | ⟨b, _ | ⟨c, _ | ⟨d, _ | ⟨e, _ | ⟨f, _ | ⟨g, rest⟩⟩⟩⟩⟩⟩⟩ <;>
    first
      | exact .inl ⟨_, rfl⟩
      | exact .inr rfl

lemma parseRecords_error (raw : List (List ℚ)) (bad : List ℚ)
    (hmem : bad ∈ raw) (hlen : bad.length ≠ 6) :
    parseRecords raw = .error .ParseError := by
  induction raw with
  | nil => cases hmem
  | cons r rest ih =>
    rcases List.mem_cons.mp hmem with h | h
    · subst h
      simp [parseRecords, parseRecord_of_length_ne bad hlen]
    · rcases parseRecord_cases r with ⟨pv, hok⟩ | herr
      · simp [parseRecords, hok, ih h]
      · simp [parseRecords, herr]

/-- C7: any raw batch containing a record that does not resolve to exactly
six numeric fields makes the whole read fail with a ParseError: no batch —
in particular no partial batch — is returned. -/
theorem c7_malformed_parse_error (s : DSState) (cols : List String)
    (raw : List (List ℚ)) (bad : List ℚ)
    (hmem : bad ∈ raw) (hlen : bad.length ≠ 6) :
    readall s cols raw = .error .ParseError := by
  have hp : parseRecords raw = .error .ParseError :=
    parseRecords_error raw bad hmem hlen
  simp [readall, hp]

/-- Witness for C7: a single five-field line makes the read fail. -/
theorem c7_witness :
    (([(1:ℚ),2,3,4,5] ∈ [[(1:ℚ),2,3,4,5]]) ∧ [(1:ℚ),2,3,4,5].length ≠ 6) ∧
    readall (configure sampleArgs) ["Position"] [[(1:ℚ),2,3,4,5]] =
      .error .ParseError :=
  ⟨⟨by simp, by decide⟩,
   c7_malformed_parse_error (configure sampleArgs) ["Position"]
     [[(1:ℚ),2,3,4,5]] [(1:ℚ),2,3,4,5] (by simp) (by decide)⟩

lemma lookupField_supported (out : Output) (c : String) (h : c ∈ supportedFields) :
    lookupField out c = .ok (fieldOf out c) := by
  simp [supportedFields] at h
  rcases h with h | h | h <;> subst h <;>
    simp [lookupField, fieldOf,
      (by decide : "Velocity" ≠ "Position"), (by decide : "Weight" ≠ "Position"),
      (by decide : "Weight" ≠ "Velocity")]

lemma lookupField_unsupported (out : Output) (c : String) (h : c ∉ supportedFields) :
    lookupField out c = .error .UnsupportedField := by
  simp [supportedFields] at h
  simp [lookupField, h.1, h.2.1, h.2.2]

lemma lookupField_cases (out : Output) (c : String) :
    (∃ a, lookupField out c = .ok a) ∨ lookupField out c = .error .UnsupportedField := by
  by_cases h : c ∈ supportedFields
  · exact .inl ⟨_, lookupField_supported out c h⟩
  · exact .inr (lookupField_unsupported out c h)

/-- C8: requesting any field name outside {Position, Velocity, Weight}
makes the projection fail with an UnsupportedField error instead of
returning a batch; when every requested name is supported, the projection
returns the corresponding arrays in the order the names were requested. -/
theorem c8_projection (out : Output) (cols : List String) :
    ((∃ c ∈ cols, c ∉ supportedFields) →
      project out cols = .error .UnsupportedField) ∧
    ((∀ c ∈ cols, c ∈ supportedFields) →
      project out cols = .ok (cols.map (fieldOf out))) := by
  induction cols with
  | nil =>
    refine ⟨?_, fun _ => rfl⟩
    rintro ⟨c, hc, _⟩
    cases hc
  | cons c cs ih =>
    constructor
    · rintro ⟨d, hd, hdn⟩
      rcases List.mem_cons.mp hd with rfl | hdcs
      · simp [project, lookupField_unsupported out d hdn]
      · have herr := ih.1 ⟨d, hdcs, hdn⟩
        rcases lookupField_cases out c with ⟨a, hok⟩ | hbad
        · simp [project, hok, herr]
        · simp [project, hbad]
    · intro hall
      have hc : c ∈ supportedFields := hall c (List.mem_cons_self c cs)
      have hcs := ih.2 fun d hd => hall d (List.mem_cons_of_mem c hd)
      simp [project, lookupField_supported out c hc, hcs]

/-- An empty output dict used to exercise the projection. -/
def sampleOut : Output := ⟨[], [], [], Dtype.float32, Dtype.float32, Dtype.float64⟩

/-- Witness for C8: the unknown name "Spin" fails with UnsupportedField,
while the supported names are returned in request order. -/
theorem c8_witness :
    ((∃ c ∈ ["Spin"], c ∉ supportedFields) ∧
      project sampleOut ["Spin"] = .error .UnsupportedField) ∧
    ((∀ c ∈ ["Weight", "Position"], c ∈ supportedFields) ∧
      project sampleOut ["Weight", "Position"] =
        .ok (["Weight", "Position"].map (fieldOf sampleOut))) := by
  have hex : ∃ c ∈ ["Spin"], c ∉ supportedFields := by decide
  have hall : ∀ c ∈ ["Weight", "Position"], c ∈ supportedFields := by decide
  exact ⟨⟨hex, (c8_projection sampleOut ["Spin"]).1 hex⟩,
         ⟨hall, (c8_projection sampleOut ["Weight", "Position"]).2 hall⟩⟩
